import Mathlib

/-!
Shallow embedding of the mbash command interpreter (src/main.rs, src/app.rs,
src/helper_functions.rs).

Modelling conventions:
- The logger, stdout/stderr and process spawning are observable effects,
  recorded as a list of Event values in emission order.
- OS interaction (env::current_dir, env::set_current_dir, fs::read_dir,
  fs::exists, File::create, fs::read_to_string, stdin/stdout) is an explicit
  environment Env; each OS call reads its outcome from Env.
- A Rust index-out-of-bounds panic is modelled by Outcome.panic with the
  message Rust would print; an escaped panic aborts the process with the
  conventional status 101.
- The AtomicBool exiting flag is a plain Bool: the program is single threaded
  (all loads/stores use Ordering::Relaxed on one thread).
- str::split_whitespace and str::trim are re-implemented structurally over
  the character list so that concrete inputs evaluate by kernel reduction.
-/

/-- Observable effects of the interpreter: leveled log events, writes to
stdout and stderr, and (never actually produced by this code) spawning an
external process. -/
inductive Event where
  | logDebug (msg : String)
  | logInfo (msg : String)
  | logError (msg : String)
  | printOut (s : String)
  | printErr (s : String)
  | spawn (name : String) (args : List String)
  deriving DecidableEq, Repr

/-- Result of running a piece of the interpreter: a value, or a Rust panic. -/
inductive Outcome (α : Type) where
  | ok (val : α)
  | panic (msg : String)
  deriving DecidableEq, Repr

/-- One entry of fs::read_dir: its file name, whether it really is a
directory, and whether the entry.file_type() call fails (with which message).
When file_type_err is some, the code cannot observe is_dir. -/
structure DirEntry where
  file_name : String
  is_dir : Bool
  file_type_err : Option String
  deriving DecidableEq, Repr

/-- The OS environment: outcomes of every OS call the program makes. -/
structure Env where
  current_dir : Option String
  current_dir_err : String
  set_current_dir_ok : String → Bool
  set_current_dir_err : String → String
  read_dir : String → Except String (List (Except String DirEntry))
  read_to_string : String → Except String String
  fs_exists : String → Except String Bool
  fs_create : String → Except String Unit

/-- Stimuli for one iteration of the run loop: the outcome of flushing the
prompt and the outcome of reading a line from stdin. -/
structure IterStim where
  flush_result : Except String Unit
  read_result : Except String String

/-- The Mbash struct (src/app.rs lines 22-29). The logger box is replaced by
the Event trace; tracking_files, the prefix and the exit command are kept. -/
structure Mbash where
  exiting : Bool
  current_path : String
  tracking_files : List String
  internal_command_pfx : String
  exit_command : String
  deriving DecidableEq, Repr

def TRACKING_FILE_NAME : String := ".mtracking"

def IGNORE_FILE_NAME : String := ".mignoring"

/-- Mbash::new (src/app.rs lines 32-41): PathBuf::new() displays as "". -/
def Mbash.new : Mbash :=
  { exiting := false
    current_path := ""
    tracking_files := []
    internal_command_pfx := "m"
    exit_command := "exit" }

/-- Helper for split_whitespace: walk the characters, accumulating the
current token in reverse. -/
def tokenize_aux : List Char → List Char → List String
  | [], acc => if acc = [] then [] else [String.mk acc.reverse]
  | c :: cs, acc =>
    if c.isWhitespace then
      if acc = [] then tokenize_aux cs []
      else String.mk acc.reverse :: tokenize_aux cs []
    else tokenize_aux cs (c :: acc)

/-- str::split_whitespace: split on runs of whitespace, no empty tokens. -/
def split_whitespace (s : String) : List String :=
  tokenize_aux s.data []

/-- str::trim: drop leading and trailing whitespace characters. -/
def trim (s : String) : String :=
  String.mk (((s.data.dropWhile Char.isWhitespace).reverse.dropWhile
    Char.isWhitespace).reverse)

/-- Mbash::exit (src/app.rs lines 226-232): if the flag is already set,
return; otherwise set it. -/
def Mbash.exit (s : Mbash) : Mbash :=
  if s.exiting then s else { s with exiting := true }

/-- Mbash::set_current_dir (src/app.rs lines 51-60): fetch the cwd from the
OS; on success store it, on failure log an error and call self.exit(). -/
def Mbash.set_current_dir (env : Env) (s : Mbash) : List Event × Mbash :=
  match env.current_dir with
  | some path => ([], { s with current_path := path })
  | none =>
    ([Event.logError ("Failed to fetch current directory path. " ++
        env.current_dir_err)],
     Mbash.exit s)

/-- Mbash::cd (src/app.rs lines 201-224): args[0] is read before any check,
so an empty argument list is an out-of-bounds panic. -/
def Mbash.cd (env : Env) (s : Mbash) (args : List String) :
    List Event × Outcome Mbash :=
  match args with
  | [] =>
    ([Event.logDebug "huh"],
     Outcome.panic "index out of bounds: the len is 0 but the index is 0")
  | new_dir :: _ =>
    if new_dir = "" then
      ([Event.logDebug "huh",
        Event.logDebug
          "\x27cd\x27 command requires a directory as an argument [cd <directory>]."],
       Outcome.ok s)
    else if env.set_current_dir_ok new_dir then
      (Event.logDebug "huh"
        :: Event.logDebug ("Changed directory to \x27" ++ new_dir ++ "\x27.")
        :: (Mbash.set_current_dir env s).1,
       Outcome.ok (Mbash.set_current_dir env s).2)
    else
      ([Event.logDebug "huh",
        Event.logError ("Failed to change directory to \x27" ++ new_dir ++
          "\x27: \x27" ++ env.set_current_dir_err new_dir ++ "\x27.")],
       Outcome.ok s)

/-- Events produced for one fs::read_dir entry inside Mbash::list_files
(src/app.rs lines 167-188): a directory prints name [DIR]; a file-type error
logs a debug line and prints name [?]; a known non-directory prints nothing;
an unreadable entry logs an error. -/
def listEntryEvents (entry_result : Except String DirEntry) : List Event :=
  match entry_result with
  | Except.ok entry =>
    match entry.file_type_err with
    | none =>
      if entry.is_dir then [Event.printOut (entry.file_name ++ " [DIR]")]
      else []
    | some e =>
      [Event.logDebug ("Failed determining whether \x27" ++ entry.file_name ++
         "\x27 is a dir or not due to an error \x27" ++ e ++ "\x27"),
       Event.printOut (entry.file_name ++ " [?]")]
  | Except.error e => [Event.logError ("Error reading file entry: " ++ e)]

/-- Mbash::list_files (src/app.rs lines 164-199): reads the entries of
self.current_path; never mutates the session and ignores its args. -/
def Mbash.list_files (env : Env) (s : Mbash) (_args : List String) :
    List Event :=
  match env.read_dir s.current_path with
  | Except.ok entries => (entries.map listEntryEvents).flatten
  | Except.error e =>
    [Event.logError ("Failed to read current directory\x27s contents due to an error \x27"
       ++ e ++ "\x27. \x27ls\x27 command failed.")]

/-- helper_functions::attempt_create_file (src/helper_functions.rs lines
10-45): create the file only if it does not exist. -/
def attempt_create_file (env : Env) (file_name : String) :
    List Event × Except String Unit :=
  match env.fs_exists file_name with
  | Except.ok true =>
    ([Event.logDebug ("\x27" ++ file_name ++ "\x27 already exists.")],
     Except.ok ())
  | Except.ok false =>
    match env.fs_create file_name with
    | Except.ok () =>
      ([Event.logDebug ("\x27" ++ file_name ++ "\x27 doesn\x27t exist!"),
        Event.logDebug ("Attempting to create \x27" ++ file_name ++ "\x27 file"),
        Event.logDebug ("Successfully created \x27" ++ file_name ++ "\x27 file!")],
       Except.ok ())
    | Except.error e =>
      ([Event.logDebug ("\x27" ++ file_name ++ "\x27 doesn\x27t exist!"),
        Event.logDebug ("Attempting to create \x27" ++ file_name ++ "\x27 file"),
        Event.logError ("Failed to create \x27" ++ file_name ++ "\x27 file! " ++ e)],
       Except.error e)
  | Except.error e =>
    ([Event.logError ("An error occured while trying to determine whether \x27"
        ++ file_name ++ "\x27 file exists or not. " ++ e)],
     Except.error e)

/-- Mbash::execute_internal_command (src/app.rs lines 139-150): init creates
the two bookkeeping files (results discarded); cd delegates to Mbash::cd;
anything else only logs the receipt. -/
def Mbash.execute_internal_command (env : Env) (s : Mbash)
    (command_name : String) (args : List String) :
    List Event × Outcome Mbash :=
  if command_name = "init" then
    (Event.logDebug ("Received internal \x27" ++ command_name ++ "\x27 command.")
      :: (attempt_create_file env IGNORE_FILE_NAME).1
      ++ (attempt_create_file env TRACKING_FILE_NAME).1,
     Outcome.ok s)
  else if command_name = "cd" then
    (Event.logDebug ("Received internal \x27" ++ command_name ++ "\x27 command.")
      :: (Mbash.cd env s args).1,
     (Mbash.cd env s args).2)
  else
    ([Event.logDebug ("Received internal \x27" ++ command_name ++ "\x27 command.")],
     Outcome.ok s)

/-- Mbash::execute_external_command (src/app.rs lines 152-162): cd and ls are
handled in-process; every other name only logs the receipt — no process is
ever spawned and no launch is attempted. -/
def Mbash.execute_external_command (env : Env) (s : Mbash)
    (command_name : String) (args : List String) :
    List Event × Outcome Mbash :=
  if command_name = "cd" then
    (Event.logDebug ("Received external \x27" ++ command_name ++ "\x27 command.")
      :: (Mbash.cd env s args).1,
     (Mbash.cd env s args).2)
  else if command_name = "ls" then
    (Event.logDebug ("Received external \x27" ++ command_name ++ "\x27 command.")
      :: Mbash.list_files env s args,
     Outcome.ok s)
  else
    ([Event.logDebug ("Received external \x27" ++ command_name ++ "\x27 command.")],
     Outcome.ok s)

/-- Mbash::handle_input (src/app.rs lines 100-137). On the internal-prefix
path parts[1] is read unconditionally, so a line whose only token is the
prefix is an out-of-bounds panic. The exit path calls self.exit() twice with
an info log in between. -/
def Mbash.handle_input (env : Env) (s : Mbash) (input_line : String) :
    List Event × Outcome Mbash :=
  match split_whitespace input_line with
  | [] =>
    ([Event.logDebug ("Received input \x27" ++ input_line ++ "\x27."),
      Event.logDebug
        "Splitting the input using whitespaces resulted in an empty vector."],
     Outcome.ok s)
  | first_word :: rest =>
    if first_word = s.internal_command_pfx then
      match rest with
      | [] =>
        ([Event.logDebug ("Received input \x27" ++ input_line ++ "\x27."),
          Event.logDebug "Received an internal command."],
         Outcome.panic "index out of bounds: the len is 1 but the index is 1")
      | command_name :: args =>
        (Event.logDebug ("Received input \x27" ++ input_line ++ "\x27.")
          :: Event.logDebug "Received an internal command."
          :: (Mbash.execute_internal_command env s command_name args).1,
         (Mbash.execute_internal_command env s command_name args).2)
    else if first_word = s.exit_command then
      ([Event.logDebug ("Received input \x27" ++ input_line ++ "\x27."),
        Event.logInfo ("Received \x27" ++ s.exit_command ++
          "\x27 command, exiting mbash.")],
       Outcome.ok (Mbash.exit (Mbash.exit s)))
    else
      (Event.logDebug ("Received input \x27" ++ input_line ++ "\x27.")
        :: (Mbash.execute_external_command env s first_word rest).1,
       (Mbash.execute_external_command env s first_word rest).2)

/-- Mbash::run (src/app.rs lines 62-98): while the exiting flag is unset,
print the prompt, flush, read a line, trim it, and dispatch non-empty input.
The stimulus list bounds how many iterations are observed; an exhausted list
models the loop still waiting for input. -/
def Mbash.run (env : Env) (stims : List IterStim) (s : Mbash) :
    List Event × Outcome Mbash :=
  match stims with
  | [] => ([], Outcome.ok s)
  | stim :: rest =>
    if s.exiting then ([], Outcome.ok s)
    else
      match stim.flush_result with
      | Except.error e =>
        (Event.printOut ("mbash@ " ++ s.current_path ++ ": ")
          :: Event.logError ("Flush failed due to an error " ++ e)
          :: (Mbash.run env rest s).1,
         (Mbash.run env rest s).2)
      | Except.ok () =>
        match stim.read_result with
        | Except.error e =>
          (Event.printOut ("mbash@ " ++ s.current_path ++ ": ")
            :: Event.logError ("Failed to read user input due to an error \x27"
                 ++ e ++ "\x27.")
            :: (Mbash.run env rest s).1,
           (Mbash.run env rest s).2)
        | Except.ok input =>
          if trim input = "" then
            (Event.printOut ("mbash@ " ++ s.current_path ++ ": ")
              :: Event.logDebug "User input is empty."
              :: (Mbash.run env rest s).1,
             (Mbash.run env rest s).2)
          else
            match Mbash.handle_input env s (trim input) with
            | (ev1, Outcome.panic m) =>
              (Event.printOut ("mbash@ " ++ s.current_path ++ ": ") :: ev1,
               Outcome.panic m)
            | (ev1, Outcome.ok s1) =>
              (Event.printOut ("mbash@ " ++ s.current_path ++ ": ")
                :: ev1 ++ (Mbash.run env rest s1).1,
               (Mbash.run env rest s1).2)

/-- Mbash::load_tracking_file (src/app.rs lines 234-254). -/
def Mbash.load_tracking_file (env : Env) (s : Mbash) :
    List Event × Except String Mbash :=
  match attempt_create_file env TRACKING_FILE_NAME with
  | (ev1, Except.error e) => (ev1, Except.error e)
  | (ev1, Except.ok ()) =>
    match env.read_to_string TRACKING_FILE_NAME with
    | Except.ok file_contents =>
      if file_contents = "" then
        (ev1 ++ [Event.logDebug "Currently not tracking anything."],
         Except.ok s)
      else
        (ev1 ++ (file_contents.splitOn "\n").map
           (fun part => Event.logDebug ("Tracking \x27" ++ part ++ "\x27")),
         Except.ok { s with tracking_files :=
           s.tracking_files ++ (file_contents.splitOn "\n") })
    | Except.error e => (ev1, Except.error e)

/-- Mbash::setup (src/app.rs lines 43-49): set_current_dir never propagates
an error; a tracking-file failure is wrapped in the anyhow context string. -/
def Mbash.setup (env : Env) (s : Mbash) : List Event × Except String Mbash :=
  match Mbash.load_tracking_file env (Mbash.set_current_dir env s).2 with
  | (ev2, Except.ok s2) =>
    ((Mbash.set_current_dir env s).1 ++ ev2, Except.ok s2)
  | (ev2, Except.error _) =>
    ((Mbash.set_current_dir env s).1 ++ ev2,
     Except.error "Failed to setup mbash, failed to load tracking file.")

/-- main (src/main.rs lines 7-16): main always returns unit, so the process
exit status is 0 on every non-panicking path; an escaped panic aborts the
process with status 101. -/
def mainFn (env : Env) (stims : List IterStim) : List Event × Nat :=
  match Mbash.setup env Mbash.new with
  | (ev1, Except.ok s1) =>
    match Mbash.run env stims s1 with
    | (ev2, Outcome.ok _) => (ev1 ++ ev2, 0)
    | (ev2, Outcome.panic _) => (ev1 ++ ev2, 101)
  | (ev1, Except.error e) =>
    (ev1 ++ [Event.printErr ("Mbash setup process failed. Check logs for more details. \x27"
        ++ e ++ "\x27.")],
     0)

/-- Recognize an error-level log event. -/
def Event.is_error_log : Event → Bool
  | Event.logError _ => true
  | _ => false

/-- Recognize a process-spawn event. -/
def Event.is_spawn : Event → Bool
  | Event.spawn _ _ => true
  | _ => false

/-- Recognize a write to stdout. -/
def Event.is_print : Event → Bool
  | Event.printOut _ => true
  | _ => false

/-- A benign concrete environment: every OS call succeeds. -/
def env0 : Env :=
  { current_dir := some "/home/user"
    current_dir_err := "No such file or directory (os error 2)"
    set_current_dir_ok := fun _ => true
    set_current_dir_err := fun _ => "No such file or directory (os error 2)"
    read_dir := fun _ => Except.ok []
    read_to_string := fun _ => Except.ok ""
    fs_exists := fun _ => Except.ok true
    fs_create := fun _ => Except.ok () }

/-- Environment where fetching the current directory fails. -/
def envNoCwd : Env :=
  { env0 with current_dir := none }

/-- Environment where changing directory fails. -/
def envCdFail : Env :=
  { env0 with set_current_dir_ok := fun _ => false }

/-- A non-directory entry whose file-type query fails. -/
def entryTypeErr : Except String DirEntry :=
  Except.ok { file_name := "notes.txt", is_dir := false,
              file_type_err := some "Operation not permitted (os error 1)" }

/-- Environment whose directory listing holds one non-directory entry whose
file-type query fails. -/
def envTypeErr : Env :=
  { env0 with read_dir := fun _ => Except.ok [entryTypeErr] }

theorem Mbash.exit_exiting (s : Mbash) : (Mbash.exit s).exiting = true := by
  unfold Mbash.exit
  split
  · assumption
  · rfl

theorem Mbash.exit_eq_self (s : Mbash) (h : s.exiting = true) :
    Mbash.exit s = s := by
  unfold Mbash.exit
  rw [if_pos h]

/-- Claim C1: the spec requires a line whose only token is the internal
prefix to be a logged no-op, but handle_input reads parts[1] unconditionally
on that path, so every such line is an out-of-bounds panic. This theorem
evaluates the code on the failing family of inputs. -/
theorem c1_prefix_alone_panics (env : Env) (s : Mbash) (line : String)
    (htok : split_whitespace line = [s.internal_command_pfx]) :
    (Mbash.handle_input env s line).2
      = Outcome.panic "index out of bounds: the len is 1 but the index is 1" := by
  unfold Mbash.handle_input
  rw [htok]
  simp

/-- Claim C1 witness: the concrete input line "m" panics. -/
theorem c1_witness :
    (Mbash.handle_input env0 Mbash.new "m").2
      = Outcome.panic "index out of bounds: the len is 1 but the index is 1" :=
  c1_prefix_alone_panics env0 Mbash.new "m" (by decide)

/-- Claim C2: the spec requires cd with an empty argument list to be a no-op
with one diagnostic, but cd reads args[0] before its emptiness check, so the
call panics; the input line "cd" reaches exactly this call. -/
theorem c2_cd_empty_args_panics (env : Env) (s : Mbash) :
    (Mbash.cd env s []).2
      = Outcome.panic "index out of bounds: the len is 0 but the index is 0"
    ∧ (Mbash.handle_input env0 Mbash.new "cd").2
      = Outcome.panic "index out of bounds: the len is 0 but the index is 0" :=
  ⟨rfl, rfl⟩

/-- Claim C2 witness: the panic at the concrete environment and session. -/
theorem c2_witness :
    (Mbash.cd env0 Mbash.new []).2
      = Outcome.panic "index out of bounds: the len is 0 but the index is 0" :=
  (c2_cd_empty_args_panics env0 Mbash.new).1

/-- Claim C4: when fetching the initial working directory fails, the cause is
logged and the termination flag is set, but main returns unit, so the process
exits with status 0 — not the non-zero status the claim requires. A clean
exit directive also exits with status 0. -/
theorem c4_startup_failure_exit_status :
    (mainFn envNoCwd []).2 = 0
    ∧ (Mbash.setup envNoCwd Mbash.new).2
        = Except.ok { Mbash.new with exiting := true }
    ∧ (mainFn envNoCwd []).1.filter Event.is_error_log
        = [Event.logError
            "Failed to fetch current directory path. No such file or directory (os error 2)"]
    ∧ (mainFn env0 [⟨Except.ok (), Except.ok "exit"⟩]).2 = 0 :=
  ⟨rfl, rfl, rfl, rfl⟩

/-- Claim C6: cd with a non-empty argument whose directory change fails logs
exactly one error and returns the session unchanged. -/
theorem c6_cd_failure_frame (env : Env) (s : Mbash) (dir : String)
    (rest : List String) (hne : dir ≠ "")
    (hfail : env.set_current_dir_ok dir = false) :
    Mbash.cd env s (dir :: rest)
      = ([Event.logDebug "huh",
          Event.logError ("Failed to change directory to \x27" ++ dir ++
            "\x27: \x27" ++ env.set_current_dir_err dir ++ "\x27.")],
         Outcome.ok s)
    ∧ ((Mbash.cd env s (dir :: rest)).1.filter Event.is_error_log).length = 1 := by
  have h1 : Mbash.cd env s (dir :: rest)
      = ([Event.logDebug "huh",
          Event.logError ("Failed to change directory to \x27" ++ dir ++
            "\x27: \x27" ++ env.set_current_dir_err dir ++ "\x27.")],
         Outcome.ok s) := by
    show (if dir = "" then _
          else if env.set_current_dir_ok dir then _ else _) = _
    rw [if_neg hne, if_neg (by simp [hfail])]
  refine ⟨h1, ?_⟩
  rw [h1]
  rfl

/-- Claim C6 witness: cd to a concrete failing path. -/
theorem c6_witness :
    Mbash.cd envCdFail Mbash.new ["/nope"]
      = ([Event.logDebug "huh",
          Event.logError "Failed to change directory to \x27/nope\x27: \x27No such file or directory (os error 2)\x27."],
         Outcome.ok Mbash.new)
    ∧ ((Mbash.cd envCdFail Mbash.new ["/nope"]).1.filter Event.is_error_log).length = 1 :=
  c6_cd_failure_frame envCdFail Mbash.new "/nope" [] (by decide) rfl

/-- Claim C7: the exit handler is idempotent — exit composed with exit equals
a single exit, the flag is always set afterwards, and invoking it with the
flag already set changes nothing. -/
theorem c7_exit_idempotent (s : Mbash) :
    Mbash.exit (Mbash.exit s) = Mbash.exit s
    ∧ (Mbash.exit s).exiting = true
    ∧ (s.exiting = true → Mbash.exit s = s) :=
  ⟨Mbash.exit_eq_self _ (Mbash.exit_exiting s), Mbash.exit_exiting s,
   fun h => Mbash.exit_eq_self s h⟩

/-- Claim C7 witness: instantiated at a session whose flag is already set. -/
theorem c7_witness :
    Mbash.exit (Mbash.exit (Mbash.exit Mbash.new))
      = Mbash.exit (Mbash.exit Mbash.new)
    ∧ (Mbash.exit (Mbash.exit Mbash.new)).exiting = true
    ∧ Mbash.exit (Mbash.exit Mbash.new) = Mbash.exit Mbash.new := by
  have h := c7_exit_idempotent (Mbash.exit Mbash.new)
  exact ⟨h.1, h.2.1, h.2.2 (by rfl)⟩

/-- Claim C8: whenever fetching the current working directory fails, the
terminating flag is set before set_current_dir returns — both at startup and
on the re-synchronization performed after a successful directory change. -/
theorem c8_fetch_failure_sets_terminating (env : Env) (s : Mbash)
    (hfail : env.current_dir = none) :
    (Mbash.set_current_dir env s).2.exiting = true
    ∧ (∀ dir rest, dir ≠ "" → env.set_current_dir_ok dir = true →
        (Mbash.cd env s (dir :: rest)).2 = Outcome.ok (Mbash.exit s)
        ∧ (Mbash.exit s).exiting = true) := by
  have hs : Mbash.set_current_dir env s
      = ([Event.logError ("Failed to fetch current directory path. "
           ++ env.current_dir_err)],
         Mbash.exit s) := by
    unfold Mbash.set_current_dir
    rw [hfail]
  constructor
  · rw [hs]
    exact Mbash.exit_exiting s
  · intro dir rest hne hok
    refine ⟨?_, Mbash.exit_exiting s⟩
    show ((if dir = "" then _
           else if env.set_current_dir_ok dir then _ else _ :
            List Event × Outcome Mbash)).2 = _
    rw [if_neg hne, if_pos (by simp [hok])]
    rw [hs]

/-- Claim C8 witness: concrete failing fetch at startup and after cd. -/
theorem c8_witness :
    (Mbash.set_current_dir envNoCwd Mbash.new).2.exiting = true
    ∧ (Mbash.cd envNoCwd Mbash.new ["/tmp"]).2
        = Outcome.ok (Mbash.exit Mbash.new)
    ∧ (Mbash.exit Mbash.new).exiting = true := by
  have h := c8_fetch_failure_sets_terminating envNoCwd Mbash.new rfl
  have h2 := h.2 "/tmp" [] (by decide) rfl
  exact ⟨h.1, h2.1, h2.2⟩

theorem listEntryEvents_spawn_free (er : Except String DirEntry) :
    (listEntryEvents er).filter Event.is_spawn = [] := by
  unfold listEntryEvents
  split
  · split
    · split <;> rfl
    · rfl
  · rfl

theorem filter_spawn_flatten (L : List (List Event))
    (h : ∀ l ∈ L, l.filter Event.is_spawn = []) :
    L.flatten.filter Event.is_spawn = [] := by
  induction L with
  | nil => rfl
  | cons a t ih =>
    rw [List.flatten_cons, List.filter_append, h a (List.mem_cons_self a t),
        ih (fun l hl => h l (List.mem_cons_of_mem a hl))]
    rfl

theorem list_files_spawn_free (env : Env) (s : Mbash) (args : List String) :
    (Mbash.list_files env s args).filter Event.is_spawn = [] := by
  unfold Mbash.list_files
  split
  · apply filter_spawn_flatten
    intro l hl
    rw [List.mem_map] at hl
    obtain ⟨er, _, rfl⟩ := hl
    exact listEntryEvents_spawn_free er
  · rfl

theorem set_current_dir_spawn_free (env : Env) (s : Mbash) :
    (Mbash.set_current_dir env s).1.filter Event.is_spawn = [] := by
  unfold Mbash.set_current_dir
  split <;> rfl

theorem attempt_create_file_spawn_free (env : Env) (n : String) :
    (attempt_create_file env n).1.filter Event.is_spawn = [] := by
  unfold attempt_create_file
  split
  · rfl
  · split <;> rfl
  · rfl

theorem cd_spawn_free (env : Env) (s : Mbash) (args : List String) :
    (Mbash.cd env s args).1.filter Event.is_spawn = [] := by
  cases args with
  | nil => rfl
  | cons d t =>
    show ((if d = "" then _
           else if env.set_current_dir_ok d then _ else _ :
            List Event × Outcome Mbash)).1.filter Event.is_spawn = []
    split
    · rfl
    · split
      · simp [List.filter_cons, Event.is_spawn, set_current_dir_spawn_free env s]
      · rfl

theorem execute_internal_command_spawn_free (env : Env) (s : Mbash)
    (name : String) (args : List String) :
    (Mbash.execute_internal_command env s name args).1.filter Event.is_spawn
      = [] := by
  unfold Mbash.execute_internal_command
  split
  · simp [List.filter_cons, List.filter_append, Event.is_spawn,
      attempt_create_file_spawn_free]
  · split
    · simp [List.filter_cons, Event.is_spawn, cd_spawn_free env s args]
    · rfl

theorem execute_external_command_spawn_free (env : Env) (s : Mbash)
    (name : String) (args : List String) :
    (Mbash.execute_external_command env s name args).1.filter Event.is_spawn
      = [] := by
  unfold Mbash.execute_external_command
  split
  · simp [List.filter_cons, Event.is_spawn, cd_spawn_free env s args]
  · split
    · simp [List.filter_cons, Event.is_spawn, list_files_spawn_free env s args]
    · rfl

theorem handle_input_spawn_free (env : Env) (s : Mbash) (line : String) :
    (Mbash.handle_input env s line).1.filter Event.is_spawn = [] := by
  unfold Mbash.handle_input
  split
  · rfl
  · split
    · split
      · rfl
      · simp [List.filter_cons, Event.is_spawn,
          execute_internal_command_spawn_free]
    · split
      · rfl
      · simp [List.filter_cons, Event.is_spawn,
          execute_external_command_spawn_free]

theorem set_current_dir_mono (env : Env) (s : Mbash) (h : s.exiting = true) :
    (Mbash.set_current_dir env s).2.exiting = true := by
  unfold Mbash.set_current_dir
  split
  · exact h
  · exact Mbash.exit_exiting s

theorem cd_mono (env : Env) (s : Mbash) (args : List String) (s' : Mbash)
    (hok : (Mbash.cd env s args).2 = Outcome.ok s') (h : s.exiting = true) :
    s'.exiting = true := by
  unfold Mbash.cd at hok
  split at hok
  · simp at hok
  · split at hok
    · simp only [Outcome.ok.injEq] at hok
      subst hok
      exact h
    · split at hok
      · simp only [Outcome.ok.injEq] at hok
        subst hok
        exact set_current_dir_mono env s h
      · simp only [Outcome.ok.injEq] at hok
        subst hok
        exact h

theorem execute_internal_command_mono (env : Env) (s : Mbash) (name : String)
    (args : List String) (s' : Mbash)
    (hok : (Mbash.execute_internal_command env s name args).2 = Outcome.ok s')
    (h : s.exiting = true) : s'.exiting = true := by
  unfold Mbash.execute_internal_command at hok
  split at hok
  · simp only [Outcome.ok.injEq] at hok
    subst hok
    exact h
  · split at hok
    · exact cd_mono env s args s' hok h
    · simp only [Outcome.ok.injEq] at hok
      subst hok
      exact h

theorem execute_external_command_mono (env : Env) (s : Mbash) (name : String)
    (args : List String) (s' : Mbash)
    (hok : (Mbash.execute_external_command env s name args).2 = Outcome.ok s')
    (h : s.exiting = true) : s'.exiting = true := by
  unfold Mbash.execute_external_command at hok
  split at hok
  · exact cd_mono env s args s' hok h
  · split at hok
    · simp only [Outcome.ok.injEq] at hok
      subst hok
      exact h
    · simp only [Outcome.ok.injEq] at hok
      subst hok
      exact h

theorem handle_input_mono (env : Env) (s : Mbash) (line : String) (s' : Mbash)
    (hok : (Mbash.handle_input env s line).2 = Outcome.ok s')
    (h : s.exiting = true) : s'.exiting = true := by
  unfold Mbash.handle_input at hok
  split at hok
  · simp only [Outcome.ok.injEq] at hok
    subst hok
    exact h
  · split at hok
    · split at hok
      · simp at hok
      · exact execute_internal_command_mono env s _ _ s' hok h
    · split at hok
      · simp only [Outcome.ok.injEq] at hok
        subst hok
        exact Mbash.exit_exiting _
      · exact execute_external_command_mono env s _ _ s' hok h

theorem run_exiting (env : Env) (stims : List IterStim) (s : Mbash)
    (h : s.exiting = true) : Mbash.run env stims s = ([], Outcome.ok s) := by
  cases stims with
  | nil => rfl
  | cons stim rest =>
    show (if s.exiting then ([], Outcome.ok s) else _) = ([], Outcome.ok s)
    rw [if_pos h]

theorem run_mono (env : Env) (stims : List IterStim) (s s' : Mbash)
    (hok : (Mbash.run env stims s).2 = Outcome.ok s') (h : s.exiting = true) :
    s'.exiting = true := by
  rw [run_exiting env stims s h] at hok
  simp only [Outcome.ok.injEq] at hok
  subst hok
  exact h

/-- Claim C9: the terminated state is absorbing. Once the exiting flag is
set, a run-loop step produces no prompt, no read and no dispatch and returns
the session unchanged, and no operation of the program — handle_input, run,
cd, set_current_dir or exit — ever clears the flag back to false. -/
theorem c9_terminated_absorbing (env : Env) (stims : List IterStim)
    (s : Mbash) (line : String) :
    (s.exiting = true → Mbash.run env stims s = ([], Outcome.ok s))
    ∧ (∀ s', (Mbash.handle_input env s line).2 = Outcome.ok s' →
        s.exiting = true → s'.exiting = true)
    ∧ (∀ s', (Mbash.run env stims s).2 = Outcome.ok s' →
        s.exiting = true → s'.exiting = true)
    ∧ (∀ args s', (Mbash.cd env s args).2 = Outcome.ok s' →
        s.exiting = true → s'.exiting = true)
    ∧ (s.exiting = true → (Mbash.set_current_dir env s).2.exiting = true)
    ∧ (s.exiting = true → Mbash.exit s = s) :=
  ⟨fun h => run_exiting env stims s h,
   fun s' hok h => handle_input_mono env s line s' hok h,
   fun s' hok h => run_mono env stims s s' hok h,
   fun args s' hok h => cd_mono env s args s' hok h,
   fun h => set_current_dir_mono env s h,
   fun h => Mbash.exit_eq_self s h⟩

/-- Claim C9 witness: a terminated session ignores a pending iteration and
the exit handler leaves it unchanged. -/
theorem c9_witness :
    Mbash.run env0 [⟨Except.ok (), Except.ok "ls"⟩] (Mbash.exit Mbash.new)
      = ([], Outcome.ok (Mbash.exit Mbash.new))
    ∧ Mbash.exit (Mbash.exit Mbash.new) = Mbash.exit Mbash.new := by
  have h := c9_terminated_absorbing env0 [⟨Except.ok (), Except.ok "ls"⟩]
    (Mbash.exit Mbash.new) "ls"
  exact ⟨h.1 (by rfl), h.2.2.2.2.2 (by rfl)⟩

/-- Claim C3 counterexample: on the input nonexistent_binary_xyz the
dispatcher emits only two debug receipt logs — no error-level launch-failure
diagnostic of any kind and no spawn — and leaves the session unchanged, so
the claimed launch-failure diagnostic does not exist. -/
theorem c3_counterexample :
    Mbash.handle_input env0 Mbash.new "nonexistent_binary_xyz"
      = ([Event.logDebug "Received input \x27nonexistent_binary_xyz\x27.",
          Event.logDebug "Received external \x27nonexistent_binary_xyz\x27 command."],
         Outcome.ok Mbash.new)
    ∧ (Mbash.handle_input env0 Mbash.new "nonexistent_binary_xyz").1.filter
        Event.is_error_log = []
    ∧ (Mbash.handle_input env0 Mbash.new "nonexistent_binary_xyz").1.filter
        Event.is_spawn = [] :=
  ⟨rfl, rfl, rfl⟩

/-- Claim C3 as amended: a command name that is not the internal prefix, not
the exit built-in and not cd or ls is silently ignored — dispatch emits only
two debug receipt logs, never attempts a launch and produces no
launch-failure diagnostic, the session is unchanged, and the interpreter
loop continues to the next iteration without crashing or terminating. -/
theorem c3_unknown_command_silent_noop (env : Env) (s : Mbash)
    (input name : String) (args : List String) (rest : List IterStim)
    (htok : split_whitespace (trim input) = name :: args)
    (hm : name ≠ s.internal_command_pfx)
    (hexit : name ≠ s.exit_command)
    (hcd : name ≠ "cd") (hls : name ≠ "ls")
    (hne : trim input ≠ "")
    (hrun : s.exiting = false) :
    Mbash.handle_input env s (trim input)
      = ([Event.logDebug ("Received input \x27" ++ trim input ++ "\x27."),
          Event.logDebug ("Received external \x27" ++ name ++ "\x27 command.")],
         Outcome.ok s)
    ∧ Mbash.run env
        ({ flush_result := Except.ok (), read_result := Except.ok input } :: rest) s
      = (Event.printOut ("mbash@ " ++ s.current_path ++ ": ")
          :: Event.logDebug ("Received input \x27" ++ trim input ++ "\x27.")
          :: Event.logDebug ("Received external \x27" ++ name ++ "\x27 command.")
          :: (Mbash.run env rest s).1,
         (Mbash.run env rest s).2) := by
  have hh : Mbash.handle_input env s (trim input)
      = ([Event.logDebug ("Received input \x27" ++ trim input ++ "\x27."),
          Event.logDebug ("Received external \x27" ++ name ++ "\x27 command.")],
         Outcome.ok s) := by
    unfold Mbash.handle_input
    rw [htok]
    show (if name = s.internal_command_pfx then _
          else if name = s.exit_command then _ else _) = _
    rw [if_neg hm, if_neg hexit]
    show (Event.logDebug _
        :: (Mbash.execute_external_command env s name args).1,
      (Mbash.execute_external_command env s name args).2) = _
    unfold Mbash.execute_external_command
    rw [if_neg hcd, if_neg hls]
  refine ⟨hh, ?_⟩
  generalize hR : Mbash.run env rest s = R
  unfold Mbash.run
  show (if s.exiting then _ else _) = _
  rw [if_neg (by simp [hrun])]
  show (if trim input = "" then _ else _) = _
  rw [if_neg hne, hh]
  show (Event.printOut ("mbash@ " ++ s.current_path ++ ": ")
      :: [Event.logDebug ("Received input \x27" ++ trim input ++ "\x27."),
          Event.logDebug ("Received external \x27" ++ name ++ "\x27 command.")]
      ++ (Mbash.run env rest s).1,
    (Mbash.run env rest s).2) = _
  rw [hR]
  simp only [List.cons_append, List.nil_append]

/-- Claim C3 witness: the amended behavior at the concrete unknown command. -/
theorem c3_witness :
    Mbash.handle_input env0 Mbash.new (trim "nonexistent_binary_xyz")
      = ([Event.logDebug ("Received input \x27" ++ trim "nonexistent_binary_xyz" ++ "\x27."),
          Event.logDebug "Received external \x27nonexistent_binary_xyz\x27 command."],
         Outcome.ok Mbash.new)
    ∧ Mbash.run env0
        [{ flush_result := Except.ok (),
           read_result := Except.ok "nonexistent_binary_xyz" }] Mbash.new
      = (Event.printOut ("mbash@ " ++ Mbash.new.current_path ++ ": ")
          :: Event.logDebug ("Received input \x27" ++ trim "nonexistent_binary_xyz" ++ "\x27.")
          :: Event.logDebug "Received external \x27nonexistent_binary_xyz\x27 command."
          :: (Mbash.run env0 [] Mbash.new).1,
         (Mbash.run env0 [] Mbash.new).2) :=
  c3_unknown_command_silent_noop env0 Mbash.new "nonexistent_binary_xyz"
    "nonexistent_binary_xyz" [] [] (by decide) (by decide) (by decide)
    (by decide) (by decide) (by decide) rfl

/-- Claim C5: a first token cd or exit (not preceded by the internal prefix)
always executes the in-process built-in and never spawns a process: no code
path of handle_input ever emits a spawn event, the exit token yields exactly
the doubled in-process exit with its info log, and the cd token yields
exactly the in-process cd handler result. -/
theorem c5_builtin_precedence (env : Env) (s : Mbash) (line name : String)
    (args : List String)
    (htok : split_whitespace line = name :: args)
    (hpfx : s.internal_command_pfx = "m")
    (hexitc : s.exit_command = "exit") :
    (Mbash.handle_input env s line).1.filter Event.is_spawn = []
    ∧ (name = "exit" →
        Mbash.handle_input env s line
          = ([Event.logDebug ("Received input \x27" ++ line ++ "\x27."),
              Event.logInfo "Received \x27exit\x27 command, exiting mbash."],
             Outcome.ok (Mbash.exit (Mbash.exit s))))
    ∧ (name = "cd" →
        Mbash.handle_input env s line
          = (Event.logDebug ("Received input \x27" ++ line ++ "\x27.")
              :: Event.logDebug "Received external \x27cd\x27 command."
              :: (Mbash.cd env s args).1,
             (Mbash.cd env s args).2)) := by
  refine ⟨handle_input_spawn_free env s line, ?_, ?_⟩
  · intro hname
    subst hname
    unfold Mbash.handle_input
    rw [htok]
    show (if "exit" = s.internal_command_pfx then _
          else if "exit" = s.exit_command then _ else _) = _
    rw [if_neg (by rw [hpfx]; decide), if_pos (by rw [hexitc]), hexitc]
    rfl
  · intro hname
    subst hname
    unfold Mbash.handle_input
    rw [htok]
    show (if "cd" = s.internal_command_pfx then _
          else if "cd" = s.exit_command then _ else _) = _
    rw [if_neg (by rw [hpfx]; decide), if_neg (by rw [hexitc]; decide)]
    show (Event.logDebug _
        :: (Mbash.execute_external_command env s "cd" args).1,
      (Mbash.execute_external_command env s "cd" args).2) = _
    unfold Mbash.execute_external_command
    rw [if_pos rfl]
    rfl

/-- Claim C5 witness: the exit built-in on the concrete line, spawn-free. -/
theorem c5_witness :
    (Mbash.handle_input env0 Mbash.new "exit").1.filter Event.is_spawn = []
    ∧ Mbash.handle_input env0 Mbash.new "exit"
      = ([Event.logDebug "Received input \x27exit\x27.",
          Event.logInfo "Received \x27exit\x27 command, exiting mbash."],
         Outcome.ok (Mbash.exit (Mbash.exit Mbash.new))) := by
  have h := c5_builtin_precedence env0 Mbash.new "exit" "exit" []
    (by decide) rfl rfl
  exact ⟨h.1, h.2.1 rfl⟩

/-- Claim C10 counterexample: a directory listing containing a single entry
that is not a directory but whose file-type query fails makes ls print that
entry with the suffix [?], so ls does not omit every non-directory entry. -/
theorem c10_counterexample :
    Mbash.list_files envTypeErr Mbash.new []
      = [Event.logDebug "Failed determining whether \x27notes.txt\x27 is a dir or not due to an error \x27Operation not permitted (os error 1)\x27",
         Event.printOut "notes.txt [?]"]
    ∧ (Mbash.list_files envTypeErr Mbash.new []).filter Event.is_print
        = [Event.printOut "notes.txt [?]"]
    ∧ entryTypeErr = Except.ok
        (DirEntry.mk "notes.txt" false (some "Operation not permitted (os error 1)")) :=
  ⟨rfl, rfl, rfl⟩

/-- Claim C10 as amended: ls is handled entirely in-process (no spawn event
on any path), reads the entries of current_path, ignores its arguments, and
prints name [DIR] for entries determined to be directories, nothing for
entries determined not to be directories, and name [?] (after a debug log)
for entries whose type cannot be determined. -/
theorem c10_ls_inprocess (env : Env) (s : Mbash) (args args2 : List String)
    (entries : List (Except String DirEntry))
    (hread : env.read_dir s.current_path = Except.ok entries) :
    Mbash.list_files env s args = (entries.map listEntryEvents).flatten
    ∧ Mbash.list_files env s args = Mbash.list_files env s args2
    ∧ (Mbash.list_files env s args).filter Event.is_spawn = []
    ∧ (∀ entry : DirEntry, entry.file_type_err = none → entry.is_dir = true →
        listEntryEvents (Except.ok entry)
          = [Event.printOut (entry.file_name ++ " [DIR]")])
    ∧ (∀ entry : DirEntry, entry.file_type_err = none → entry.is_dir = false →
        listEntryEvents (Except.ok entry) = [])
    ∧ (∀ entry : DirEntry, ∀ e, entry.file_type_err = some e →
        listEntryEvents (Except.ok entry)
          = [Event.logDebug ("Failed determining whether \x27" ++
               entry.file_name ++ "\x27 is a dir or not due to an error \x27"
               ++ e ++ "\x27"),
             Event.printOut (entry.file_name ++ " [?]")]) := by
  have h1 : Mbash.list_files env s args
      = (entries.map listEntryEvents).flatten := by
    unfold Mbash.list_files
    rw [hread]
  have h2 : Mbash.list_files env s args2
      = (entries.map listEntryEvents).flatten := by
    unfold Mbash.list_files
    rw [hread]
  refine ⟨h1, by rw [h1, h2], list_files_spawn_free env s args, ?_, ?_, ?_⟩
  · intro entry hft hd
    simp [listEntryEvents, hft, hd]
  · intro entry hft hd
    simp [listEntryEvents, hft, hd]
  · intro entry e hft
    simp [listEntryEvents, hft]

/-- Claim C10 witness: the amended characterization at the concrete failing
environment. -/
theorem c10_witness :
    Mbash.list_files envTypeErr Mbash.new []
      = (List.map listEntryEvents [entryTypeErr]).flatten
    ∧ Mbash.list_files envTypeErr Mbash.new []
        = Mbash.list_files envTypeErr Mbash.new ["-la"]
    ∧ (Mbash.list_files envTypeErr Mbash.new []).filter Event.is_spawn = [] := by
  have h := c10_ls_inprocess envTypeErr Mbash.new [] ["-la"] [entryTypeErr] rfl
  exact ⟨h.1, h.2.1, h.2.2.1⟩
